import Mathlib

/-!
Verification of the cake-catalog backend (`main.py`).

The development shallowly embeds the read path of the service: the slug
helper `slugify`, the normalizer `to_cake_out`, the startup seed loader
`ensure_seed_data`, the static fallback list `ensure_static_fallback`, and
the two read endpoints `list_cakes` and `get_cake`.  Stored documents from
the document store are modelled as `StoredDoc` records of optional fields,
Python exceptions as `Except` errors, and Python floats as rationals.
-/

/-- Whitespace characters recognised by Python `str.split` / `str.strip`
(the ASCII fragment: space, tab, newline, carriage return, vertical tab,
form feed). -/
def isPySpace (c : Char) : Bool :=
  c == ' ' || c == '\t' || c == '\n' || c == '\r' || c == '\x0b' || c == '\x0c'

/-- Remove leading whitespace. -/
def lstrip (cs : List Char) : List Char := cs.dropWhile isPySpace

/-- Remove trailing whitespace. -/
def rstrip (cs : List Char) : List Char := (cs.reverse.dropWhile isPySpace).reverse

/-- Python `str.strip()`: remove leading and trailing whitespace. -/
def pyStrip (cs : List Char) : List Char := lstrip (rstrip cs)

/-- Python `str.split()` with no separator: split on whitespace runs and drop
empty pieces.  `cur` is the word currently being accumulated, reversed. -/
def pySplitAux (cur : List Char) : List Char → List (List Char)
  | [] => if cur.isEmpty then [] else [cur.reverse]
  | c :: cs =>
    if isPySpace c then
      if cur.isEmpty then pySplitAux [] cs else cur.reverse :: pySplitAux [] cs
    else pySplitAux (c :: cur) cs

/-- Python `"-".join(ws)`. -/
def joinWords : List (List Char) → List Char
  | [] => []
  | [w] => w
  | w :: w2 :: ws => w ++ '-' :: joinWords (w2 :: ws)

/-- The source helper `slugify` (main.py line 43), on character lists:
`"-".join(name.lower().strip().split())`. -/
def slugifyL (name : List Char) : List Char :=
  joinWords (pySplitAux [] (pyStrip (name.map Char.toLower)))

/-- The source helper `slugify` (main.py line 43). -/
def slugify (name : String) : String := String.mk (slugifyL name.data)

/-- Replace each maximal whitespace run by a single hyphen (the spec's wording
for slug derivation). -/
def collapseRuns : List Char → List Char
  | [] => []
  | [c] => if isPySpace c then ['-'] else [c]
  | c :: d :: cs =>
    if isPySpace c && isPySpace d then collapseRuns (d :: cs)
    else (if isPySpace c then '-' else c) :: collapseRuns (d :: cs)

/-- Slug derivation exactly as the spec words it: lowercase, strip
leading/trailing whitespace, collapse internal whitespace runs to single
hyphens. -/
def slugSpecL (name : List Char) : List Char :=
  collapseRuns (pyStrip (name.map Char.toLower))

/-- String-level version of `slugSpecL`. -/
def slugSpec (name : String) : String := String.mk (slugSpecL name.data)

/-- A character list does not end in whitespace. -/
def noTrail : List Char → Prop
  | [] => True
  | [c] => isPySpace c = false
  | _ :: c :: cs => noTrail (c :: cs)


deriving instance DecidableEq for Except

/-- A loosely-typed value as stored in the document store (the fragment of
Python/BSON values the catalog fields use). -/
inductive PyVal where
  | num (q : ℚ)
  | str (s : String)
  | boolean (b : Bool)
  | null
deriving DecidableEq

/-- The Python exceptions the read path can raise: `ValueError` from
`float(...)`, `TypeError` from `float(None)`, and pydantic's
`ValidationError` from `CakeOut(...)`. -/
inductive PyErr where
  | valueError
  | typeError
  | validationError
deriving DecidableEq

/-- Value of a nonempty digit string. -/
def digitsToNat (l : List Char) : Nat :=
  l.foldl (fun n c => n * 10 + (c.toNat - 48)) 0

/-- All characters are decimal digits. -/
def allDigits (l : List Char) : Bool := l.all Char.isDigit

/-- Python `float(s)` on a string: strip whitespace, optional sign, decimal
digits with at most one dot (exponents and inf/nan are not modelled; every
string the program actually meets is covered).  Returns `none` when the
string cannot be parsed as a number. -/
def parsePyFloat (s : String) : Option ℚ :=
  let l := pyStrip s.data
  let signed : ℚ × List Char :=
    match l with
    | '+' :: r => (1, r)
    | '-' :: r => (-1, r)
    | r => (1, r)
  match signed.2.span (fun c => c != '.') with
  | (ip, []) =>
    if ip ≠ [] && allDigits ip then some (signed.1 * digitsToNat ip) else none
  | (ip, _dot :: fp) =>
    if allDigits ip && allDigits fp && (ip ≠ [] || fp ≠ []) then
      some (signed.1 * ((digitsToNat ip : ℚ) + (digitsToNat fp : ℚ) / 10 ^ fp.length))
    else none

/-- Python `float(v)` (main.py line 55 applies it to the stored
`base_price`). -/
def pyFloat : PyVal → Except PyErr ℚ
  | PyVal.num q => Except.ok q
  | PyVal.boolean b => Except.ok (if b then 1 else 0)
  | PyVal.str s =>
    match parsePyFloat s with
    | some q => Except.ok q
    | none => Except.error PyErr.valueError
  | PyVal.null => Except.error PyErr.typeError

/-- Python `bool(v)` truthiness (main.py line 61 applies it to the stored
`featured`). -/
def pyTruthy : PyVal → Bool
  | PyVal.num q => decide (q ≠ 0)
  | PyVal.str s => decide (s ≠ "")
  | PyVal.boolean b => b
  | PyVal.null => false

/-- A price adjustment (main.py `PriceAdjust`). -/
structure PriceAdjust where
  label : String
  amount : ℚ
deriving DecidableEq

/-- An option group (main.py `CakeOption`); on the read path pydantic checks
`name` against the fixed enumeration. -/
structure CakeOption where
  name : String
  values : List PriceAdjust
deriving DecidableEq

/-- The response model (main.py `CakeOut`); `category` is constrained by the
pydantic `Literal` to the five catalog categories, checked at construction. -/
structure CakeOut where
  id : String
  slug : String
  name : String
  tagline : Option String
  description : Option String
  category : String
  base_price : ℚ
  image_url : Option String
  model_url : Option String
  ingredients : Option (List String)
  allergens : Option (List String)
  options : Option (List CakeOption)
  featured : Bool
deriving DecidableEq

/-- A stored record from the `cake` collection: a dict of optional,
loosely-typed fields (`doc.get` yields `none` for a missing key). -/
structure StoredDoc where
  _id : Option String := none
  slug : Option String := none
  name : Option String := none
  tagline : Option String := none
  description : Option String := none
  category : Option String := none
  base_price : Option PyVal := none
  image_url : Option String := none
  model_url : Option String := none
  ingredients : Option (List String) := none
  allergens : Option (List String) := none
  options : Option (List CakeOption) := none
  featured : Option PyVal := none
deriving DecidableEq

/-- The five catalog categories of the `CakeOut` `Literal`. -/
def categories : List String :=
  ["Wedding", "Birthday", "Signature", "Corporate", "Seasonal"]

/-- The four option-group names of the `CakeOption` `Literal`. -/
def optionNames : List String := ["Size", "Flavor", "Filling", "Frosting"]

/-- Python `str(doc.get("_id"))`: a missing key gives `str(None) = "None"`;
an ObjectId stringifies to its hex form, modelled as the stored string. -/
def strOfId : Option String → String
  | some s => s
  | none => "None"

/-- The slug expression of main.py line 50:
`doc.get("slug") or slugify(doc.get("name", "cake"))` — a missing or empty
(falsy) stored slug falls back to the derivation from the name. -/
def slugField (doc : StoredDoc) : String :=
  match doc.slug with
  | some s => if s = "" then slugify (doc.name.getD "cake") else s
  | none => slugify (doc.name.getD "cake")

/-- Pydantic validation of the `options` field: every group name must be in
the `CakeOption` `Literal` enumeration. -/
def optionsOk : Option (List CakeOption) → Bool
  | none => true
  | some gs => gs.all (fun g => optionNames.contains g.name)

/-- The normalizer `to_cake_out` (main.py lines 47-62).  Argument evaluation
runs `float(doc.get("base_price", 0))` first (it can raise `ValueError` or
`TypeError`); pydantic then validates the required `name`, the `category`
`Literal`, and the `options` groups, raising `ValidationError` on failure. -/
def to_cake_out (doc : StoredDoc) : Except PyErr CakeOut :=
  match pyFloat (doc.base_price.getD (PyVal.num 0)) with
  | Except.error e => Except.error e
  | Except.ok bp =>
    match doc.name with
    | none => Except.error PyErr.validationError
    | some nm =>
      if categories.contains (doc.category.getD "Signature") = false then
        Except.error PyErr.validationError
      else if optionsOk doc.options = false then
        Except.error PyErr.validationError
      else
        Except.ok
          { id := strOfId doc._id
            slug := slugField doc
            name := nm
            tagline := doc.tagline
            description := doc.description
            category := doc.category.getD "Signature"
            base_price := bp
            image_url := doc.image_url
            model_url := doc.model_url
            ingredients := doc.ingredients
            allergens := doc.allergens
            options := doc.options
            featured := pyTruthy (doc.featured.getD (PyVal.boolean false)) }

/-- A store query as built by `list_cakes` (main.py lines 229-233): at most a
`category` and a `featured` constraint. -/
structure Query where
  category : Option String := none
  featured : Option Bool := none
deriving DecidableEq

/-- Query construction of main.py lines 229-233: `if category:` adds only a
truthy (non-`None`, non-empty) category; `if featured is not None:` adds any
non-`None` featured value, including `False`. -/
def buildQuery (category : Option String) (featured : Option Bool) : Query :=
  { category :=
      match category with
      | some c => if c = "" then none else some c
      | none => none
    featured := featured }

/-- Document-store collaborator semantics (spec section 6): `find` keeps the
records whose fields equal every value present in the exact-match query; a
record missing a queried field does not match. -/
def matchesQuery (q : Query) (d : StoredDoc) : Bool :=
  (match q.category with
    | none => true
    | some c => d.category == some c) &&
  (match q.featured with
    | none => true
    | some b => d.featured == some (PyVal.boolean b))

/-- The Python list comprehension `[to_cake_out(d) for d in docs]`: the first
exception aborts the whole comprehension. -/
def mapExcept (f : StoredDoc → Except PyErr CakeOut) :
    List StoredDoc → Except PyErr (List CakeOut)
  | [] => Except.ok []
  | d :: ds =>
    match f d with
    | Except.error e => Except.error e
    | Except.ok c =>
      match mapExcept f ds with
      | Except.error e => Except.error e
      | Except.ok cs => Except.ok (c :: cs)

/-- What an endpoint call can surface: an `HTTPException` raised on purpose,
or an uncaught Python exception from normalization. -/
inductive AppErr where
  | http (status : Nat) (detail : String)
  | py (e : PyErr)
deriving DecidableEq

/-- First fallback dict of `_def_fallback` (main.py lines 254-264); the dict
has no `ingredients`, `allergens` or `options` keys and stores
`model_url: None`. -/
def fallbackDoc1 : StoredDoc :=
  { name := some "Madagascar Vanilla Classic"
    slug := some "madagascar-vanilla-classic"
    tagline := some "Where elegance meets comfort."
    description := some "Moist Madagascar vanilla sponge layered with house-made salted caramel and finished with French buttercream."
    category := some "Signature"
    base_price := some (PyVal.num 75)
    image_url := some "https://images.unsplash.com/photo-1559622214-3f1b2c6e49a5?q=80&w=1200&auto=format&fit=crop"
    model_url := none
    featured := some (PyVal.boolean true) }

/-- Second fallback dict of `_def_fallback` (main.py lines 265-275). -/
def fallbackDoc2 : StoredDoc :=
  { name := some "Dark Cocoa Truffle"
    slug := some "dark-cocoa-truffle"
    tagline := some "For the true chocolate purist."
    description := some "Rich dark chocolate sponge, layered with silky truffle ganache."
    category := some "Signature"
    base_price := some (PyVal.num 85)
    image_url := some "https://images.unsplash.com/photo-1606313564200-e75d5e30476c?q=80&w=1200&auto=format&fit=crop"
    model_url := none
    featured := some (PyVal.boolean true) }

/-- The `_def_fallback` list (main.py lines 253-276). -/
def fallbackDocs : List StoredDoc := [fallbackDoc1, fallbackDoc2]

/-- Numeric value of a stored number (the fallback dicts always store
`base_price` as a number, so pydantic receives it unchanged). -/
def pyNumVal : PyVal → ℚ
  | PyVal.num q => q
  | _ => 0

/-- Stored boolean value (the fallback dicts always store `featured` as a
boolean, so pydantic receives it unchanged). -/
def pyBoolVal : PyVal → Bool
  | PyVal.boolean b => b
  | _ => false

/-- One item of the fallback construction (main.py lines 281-295): a
`CakeOut` built directly from the fallback dict and its position `i`, with
`id = str(i)`, `slug = doc["slug"]`, `name = doc["name"]`, defaults for
`category`, `base_price` and `featured`, and `ingredients`, `allergens`,
`options` fixed to `None`. -/
def fallbackItem (i : Nat) (doc : StoredDoc) : CakeOut :=
  { id := toString i
    slug := doc.slug.getD ""
    name := doc.name.getD ""
    tagline := doc.tagline
    description := doc.description
    category := doc.category.getD "Signature"
    base_price := pyNumVal (doc.base_price.getD (PyVal.num 0))
    image_url := doc.image_url
    model_url := doc.model_url
    ingredients := none
    allergens := none
    options := none
    featured := pyBoolVal (doc.featured.getD (PyVal.boolean false)) }

/-- The static fallback (main.py lines 279-297): the fallback dicts with
their enumeration indices. -/
def ensure_static_fallback : List CakeOut :=
  fallbackDocs.enum.map (fun p => fallbackItem p.1 p.2)

/-- The `GET /cakes` handler `list_cakes` (main.py lines 222-235): a `none`
store handle serves the static fallback, ignoring both filter arguments;
otherwise the built query is run against the `cake` collection and every
returned record is normalized. -/
def list_cakes (db : Option (List StoredDoc)) (category : Option String)
    (featured : Option Bool) : Except AppErr (List CakeOut) :=
  match db with
  | none => Except.ok ensure_static_fallback
  | some docs =>
    match mapExcept to_cake_out
        (docs.filter (matchesQuery (buildQuery category featured))) with
    | Except.ok cs => Except.ok cs
    | Except.error e => Except.error (AppErr.py e)

/-- The `GET /cakes/{slug}` handler `get_cake` (main.py lines 238-249): with
no store handle it scans the fallback list for an equal slug; otherwise it
runs `find_one({"slug": slug})` and normalizes the hit; in both states a miss
raises `HTTPException(404, "Cake not found")`. -/
def get_cake (db : Option (List StoredDoc)) (slug : String) :
    Except AppErr CakeOut :=
  match db with
  | none =>
    match ensure_static_fallback.find? (fun c => c.slug == slug) with
    | some c => Except.ok c
    | none => Except.error (AppErr.http 404 "Cake not found")
  | some docs =>
    match docs.find? (fun d => d.slug == some slug) with
    | none => Except.error (AppErr.http 404 "Cake not found")
    | some doc =>
      match to_cake_out doc with
      | Except.ok c => Except.ok c
      | Except.error e => Except.error (AppErr.py e)

/-- First seed record (main.py lines 75-105). -/
def seedDoc1 : StoredDoc :=
  { name := some "Madagascar Vanilla Classic"
    slug := some "madagascar-vanilla-classic"
    tagline := some "Where elegance meets comfort."
    description := some "Moist Madagascar vanilla sponge layered with house-made salted caramel and finished with French buttercream."
    category := some "Signature"
    base_price := some (PyVal.num 75)
    image_url := some "https://images.unsplash.com/photo-1559622214-3f1b2c6e49a5?q=80&w=1200&auto=format&fit=crop"
    model_url := none
    ingredients := some ["Flour", "Sugar", "Butter", "Eggs", "Vanilla"]
    allergens := some ["Dairy", "Eggs", "Gluten"]
    options := some
      [ { name := "Size"
          values :=
            [ { label := "6\" (8 servings)", amount := 0 },
              { label := "8\" (14 servings)", amount := 25 },
              { label := "10\" (24 servings)", amount := 60 } ] },
        { name := "Frosting"
          values :=
            [ { label := "French Buttercream", amount := 0 },
              { label := "Swiss Meringue", amount := 8 },
              { label := "Ganache", amount := 12 } ] } ]
    featured := some (PyVal.boolean true) }

/-- Second seed record (main.py lines 106-135). -/
def seedDoc2 : StoredDoc :=
  { name := some "Dark Cocoa Truffle"
    slug := some "dark-cocoa-truffle"
    tagline := some "For the true chocolate purist."
    description := some "Rich dark chocolate sponge, layered with silky truffle ganache."
    category := some "Signature"
    base_price := some (PyVal.num 85)
    image_url := some "https://images.unsplash.com/photo-1606313564200-e75d5e30476c?q=80&w=1200&auto=format&fit=crop"
    model_url := none
    ingredients := some ["Cocoa", "Butter", "Sugar", "Eggs", "Cream"]
    allergens := some ["Dairy", "Eggs", "Gluten"]
    options := some
      [ { name := "Size"
          values :=
            [ { label := "6\" (8 servings)", amount := 0 },
              { label := "8\" (14 servings)", amount := 28 },
              { label := "10\" (24 servings)", amount := 65 } ] },
        { name := "Filling"
          values :=
            [ { label := "Truffle Ganache", amount := 0 },
              { label := "Raspberry Compote", amount := 6 } ] } ]
    featured := some (PyVal.boolean true) }

/-- Third seed record (main.py lines 136-157). -/
def seedDoc3 : StoredDoc :=
  { name := some "Berry Velvet"
    slug := some "berry-velvet"
    tagline := some "A jewel-toned celebration."
    description := some "Vanilla sponge, berry compote, mascarpone frosting."
    category := some "Birthday"
    base_price := some (PyVal.num 78)
    image_url := some "https://images.unsplash.com/photo-1562777717-dc6984f65a63?q=80&w=1200&auto=format&fit=crop"
    model_url := none
    ingredients := some ["Flour", "Sugar", "Eggs", "Mascarpone", "Berries"]
    allergens := some ["Dairy", "Eggs", "Gluten"]
    options := some
      [ { name := "Frosting"
          values :=
            [ { label := "Mascarpone", amount := 0 },
              { label := "Buttercream", amount := 5 } ] } ]
    featured := some (PyVal.boolean false) }

/-- The fixed seed set `samples` (main.py lines 74-158). -/
def seedSamples : List StoredDoc := [seedDoc1, seedDoc2, seedDoc3]

/-- The state the seed loader runs against: the `database` module may fail to
import, the handle may be `None`, or the `cake` collection is a document list
whose `count_documents` / `insert_many` operations may each raise. -/
inductive SeedDB where
  | importFailed : SeedDB
  | dbNone : SeedDB
  | store (docs : List StoredDoc) (countFails : Bool) (insertFails : Bool) : SeedDB
deriving DecidableEq

/-- A failure inside the seed loader's `try` block. -/
inductive SeedErr where
  | importErr
  | opErr
deriving DecidableEq

/-- The body of the seed loader's `try` block (main.py lines 69-159): import
the handle, return if it is `None`, count the `cake` collection, and insert
the three samples only when the count is zero. -/
def seedBody : SeedDB → Except SeedErr SeedDB
  | SeedDB.importFailed => Except.error SeedErr.importErr
  | SeedDB.dbNone => Except.ok SeedDB.dbNone
  | SeedDB.store docs cf inf =>
    if cf then Except.error SeedErr.opErr
    else if docs.length = 0 then
      if inf then Except.error SeedErr.opErr
      else Except.ok (SeedDB.store (docs ++ seedSamples) cf inf)
    else Except.ok (SeedDB.store docs cf inf)

/-- The seed loader `ensure_seed_data` (main.py lines 67-162): the `except
Exception: pass` swallows every failure of the body, leaving the store as it
was; the function itself never raises. -/
def ensure_seed_data (db : SeedDB) : Except SeedErr SeedDB :=
  match seedBody db with
  | Except.ok db2 => Except.ok db2
  | Except.error _ => Except.ok db

/-- A well-formed stored record used as a concrete instance in proofs. -/
def goodDoc : StoredDoc :=
  { name := some "Good Cake", slug := some "good-cake",
    base_price := some (PyVal.num 5) }

/-- A stored record with no `name` key. -/
def noNameDoc : StoredDoc := { base_price := some (PyVal.num 7) }

/-- A stored record whose category is outside the `CakeOut` enumeration. -/
def gothicDoc : StoredDoc := { name := some "X", category := some "Gothic" }

/-- A stored record with a recognized non-default category. -/
def corporateDoc : StoredDoc :=
  { name := some "X", category := some "Corporate" }

/-- Normalization of `corporateDoc`. -/
def corporateOut : CakeOut :=
  { id := "None", slug := "x", name := "X", tagline := none,
    description := none, category := "Corporate", base_price := 0,
    image_url := none, model_url := none, ingredients := none,
    allergens := none, options := none, featured := false }

/-- A stored record with no `base_price` key. -/
def priceAbsentDoc : StoredDoc := { name := some "X" }

/-- Normalization of `priceAbsentDoc`. -/
def priceAbsentOut : CakeOut :=
  { id := "None", slug := "x", name := "X", tagline := none,
    description := none, category := "Signature", base_price := 0,
    image_url := none, model_url := none, ingredients := none,
    allergens := none, options := none, featured := false }

/-- A stored record whose `base_price` is a non-numeric string. -/
def priceBadStrDoc : StoredDoc :=
  { name := some "X", base_price := some (PyVal.str "abc") }

/-- A stored record with a non-empty stored slug. -/
def storedSlugDoc : StoredDoc := { name := some "X", slug := some "custom" }

/-- Normalization of `storedSlugDoc`. -/
def storedSlugOut : CakeOut :=
  { id := "None", slug := "custom", name := "X", tagline := none,
    description := none, category := "Signature", base_price := 0,
    image_url := none, model_url := none, ingredients := none,
    allergens := none, options := none, featured := false }

/-- A stored record with no slug, whose slug is derived from the name. -/
def derivedSlugDoc : StoredDoc := { name := some "Choco Loco" }

/-- Normalization of `derivedSlugDoc`. -/
def derivedSlugOut : CakeOut :=
  { id := "None", slug := "choco-loco", name := "Choco Loco",
    tagline := none, description := none, category := "Signature",
    base_price := 0, image_url := none, model_url := none,
    ingredients := none, allergens := none, options := none,
    featured := false }

/-- A stored record with `featured = true`. -/
def featTrueDoc : StoredDoc :=
  { name := some "Feat", slug := some "feat-true",
    featured := some (PyVal.boolean true) }

/-- A stored record with `featured = false`. -/
def featFalseDoc : StoredDoc :=
  { name := some "Plain", slug := some "plain",
    featured := some (PyVal.boolean false) }

/-- Normalization of `featFalseDoc`. -/
def featFalseOut : CakeOut :=
  { id := "None", slug := "plain", name := "Plain", tagline := none,
    description := none, category := "Signature", base_price := 0,
    image_url := none, model_url := none, ingredients := none,
    allergens := none, options := none, featured := false }

/-- The minimal stored record of the spec's defaults example:
only the identity key, a name and a base price. -/
def minimalDoc : StoredDoc :=
  { _id := some "id1", name := some "X", base_price := some (PyVal.num 10) }

/-- Normalization of `minimalDoc`. -/
def minimalOut : CakeOut :=
  { id := "id1", slug := "x", name := "X", tagline := none,
    description := none, category := "Signature", base_price := 10,
    image_url := none, model_url := none, ingredients := none,
    allergens := none, options := none, featured := false }

theorem noTrail_append_singleton (xs : List Char) (c : Char)
    (h : isPySpace c = false) : noTrail (xs ++ [c]) := by
  induction xs with
  | nil => simpa [noTrail] using h
  | cons x xs ih =>
    cases xs with
    | nil => simpa [noTrail] using h
    | cons y ys => simpa [noTrail, List.cons_append] using ih

theorem dropWhile_head_false (p : Char → Bool) (l : List Char) (c : Char)
    (cs : List Char) (h : l.dropWhile p = c :: cs) : p c = false := by
  induction l with
  | nil => simp [List.dropWhile] at h
  | cons x xs ih =>
    rw [List.dropWhile_cons] at h
    by_cases hx : p x = true
    · rw [if_pos hx] at h
      exact ih h
    · rw [if_neg hx] at h
      injection h with h1 h2
      subst h1
      simpa using hx

theorem noTrail_rstrip (l : List Char) : noTrail (rstrip l) := by
  unfold rstrip
  generalize h : l.reverse.dropWhile isPySpace = t
  cases t with
  | nil => simp [noTrail]
  | cons c cs =>
    rw [List.reverse_cons]
    exact noTrail_append_singleton _ _ (dropWhile_head_false _ _ _ _ h)

theorem noTrail_dropWhile (p : Char → Bool) (l : List Char) (h : noTrail l) :
    noTrail (l.dropWhile p) := by
  induction l with
  | nil => simpa using h
  | cons x xs ih =>
    rw [List.dropWhile_cons]
    by_cases hx : p x = true
    · rw [if_pos hx]
      apply ih
      cases xs with
      | nil => simp [noTrail]
      | cons y ys => simpa [noTrail] using h
    · rw [if_neg hx]
      exact h

theorem noTrail_pyStrip (l : List Char) : noTrail (pyStrip l) :=
  noTrail_dropWhile _ _ (noTrail_rstrip l)

theorem lstrip_lstrip (l : List Char) : lstrip (lstrip l) = lstrip l := by
  unfold lstrip
  induction l with
  | nil => simp
  | cons x xs ih =>
    rw [List.dropWhile_cons]
    by_cases hx : isPySpace x = true
    · rw [if_pos hx]
      exact ih
    · rw [if_neg hx, List.dropWhile_cons, if_neg hx]

theorem lstrip_cons_pos (c : Char) (cs : List Char) (hc : isPySpace c = true) :
    lstrip (c :: cs) = lstrip cs := by
  unfold lstrip
  rw [List.dropWhile_cons, if_pos hc]

theorem lstrip_cons_neg (c : Char) (cs : List Char) (hc : isPySpace c = false) :
    lstrip (c :: cs) = c :: cs := by
  unfold lstrip
  rw [List.dropWhile_cons, if_neg (by simp [hc])]

theorem pySplitAux_cons_ne_nil (t : List Char) :
    ∀ cur c, pySplitAux (c :: cur) t ≠ [] := by
  induction t with
  | nil =>
    intro cur c
    simp [pySplitAux]
  | cons d t ih =>
    intro cur c
    by_cases hd : isPySpace d = true
    · simp [pySplitAux, hd]
    · simpa [pySplitAux, hd] using ih (c :: cur) d

theorem pySplitAux_nil_ne_nil (t : List Char) (ht : noTrail t) (hne : t ≠ []) :
    pySplitAux [] t ≠ [] := by
  induction t with
  | nil => exact absurd rfl hne
  | cons c cs ih =>
    by_cases hc : isPySpace c = true
    · cases cs with
      | nil => simp [noTrail, hc] at ht
      | cons d ds =>
        have ht' : noTrail (d :: ds) := by simpa [noTrail] using ht
        simpa [pySplitAux, hc] using ih ht' (by simp)
    · simpa [pySplitAux, hc] using pySplitAux_cons_ne_nil cs [] c

theorem collapseRuns_space_cons (cs : List Char) :
    ∀ c, isPySpace c = true → noTrail (c :: cs) →
      collapseRuns (c :: cs) = '-' :: collapseRuns (lstrip cs) := by
  induction cs with
  | nil =>
    intro c hc ht
    simp [noTrail, hc] at ht
  | cons d ds ih =>
    intro c hc ht
    have ht' : noTrail (d :: ds) := by simpa [noTrail] using ht
    by_cases hd : isPySpace d = true
    · rw [show collapseRuns (c :: d :: ds) = collapseRuns (d :: ds) by
        simp [collapseRuns, hc, hd]]
      rw [ih d hd ht', lstrip_cons_pos d ds hd]
    · have hd' : isPySpace d = false := by simpa using hd
      have hstep : collapseRuns (c :: d :: ds) = '-' :: collapseRuns (d :: ds) := by
        simp [collapseRuns, hc, hd']
      rw [hstep, lstrip_cons_neg d ds hd']

theorem pySplit_join_collapse (t : List Char) (ht : noTrail t) :
    joinWords (pySplitAux [] t) = collapseRuns (lstrip t) ∧
      ∀ c0 cur, joinWords (pySplitAux (c0 :: cur) t) =
        (c0 :: cur).reverse ++ collapseRuns t := by
  induction t with
  | nil =>
    constructor
    · simp [pySplitAux, collapseRuns, lstrip, joinWords]
    · intro c0 cur
      simp [pySplitAux, collapseRuns, joinWords]
  | cons c cs ih =>
    cases cs with
    | nil =>
      have hc : isPySpace c = false := by simpa [noTrail] using ht
      constructor
      · simp [pySplitAux, hc, collapseRuns, lstrip, List.dropWhile_cons,
          joinWords]
      · intro c0 cur
        simp [pySplitAux, hc, collapseRuns, joinWords, List.reverse_cons,
          List.append_assoc]
    | cons d ds =>
      have ht' : noTrail (d :: ds) := by simpa [noTrail] using ht
      obtain ⟨ihQ, ihP⟩ := ih ht'
      by_cases hc : isPySpace c = true
      · have hne : pySplitAux [] (d :: ds) ≠ [] :=
          pySplitAux_nil_ne_nil _ ht' (by simp)
        constructor
        · rw [show pySplitAux [] (c :: d :: ds) = pySplitAux [] (d :: ds) by
            simp [pySplitAux, hc]]
          rw [ihQ, lstrip_cons_pos c (d :: ds) hc]
        · intro c0 cur
          rw [show pySplitAux (c0 :: cur) (c :: d :: ds) =
              (c0 :: cur).reverse :: pySplitAux [] (d :: ds) by
            simp [pySplitAux, hc]]
          obtain ⟨w, ws, hw⟩ := List.exists_cons_of_ne_nil hne
          rw [hw, joinWords, ← hw, ihQ, collapseRuns_space_cons (d :: ds) c hc ht]
      · have hc' : isPySpace c = false := by simpa using hc
        have hcol : collapseRuns (c :: d :: ds) = c :: collapseRuns (d :: ds) := by
          simp [collapseRuns, hc']
        constructor
        · rw [show pySplitAux [] (c :: d :: ds) = pySplitAux [c] (d :: ds) by
            simp [pySplitAux, hc']]
          rw [ihP c [], lstrip_cons_neg c (d :: ds) hc', hcol]
          simp
        · intro c0 cur
          rw [show pySplitAux (c0 :: cur) (c :: d :: ds) =
              pySplitAux (c :: c0 :: cur) (d :: ds) by
            simp [pySplitAux, hc']]
          rw [ihP c (c0 :: cur), hcol]
          simp [List.reverse_cons, List.append_assoc]

theorem slugifyL_eq_slugSpecL (name : List Char) :
    slugifyL name = slugSpecL name := by
  unfold slugifyL slugSpecL
  have ht : noTrail (pyStrip (name.map Char.toLower)) := noTrail_pyStrip _
  rw [(pySplit_join_collapse _ ht).1]
  unfold pyStrip
  rw [lstrip_lstrip]

theorem slugify_eq_slugSpec (name : String) : slugify name = slugSpec name := by
  unfold slugify slugSpec
  rw [slugifyL_eq_slugSpecL]

theorem to_cake_out_ok_fields (d : StoredDoc) (c : CakeOut)
    (h : to_cake_out d = Except.ok c) :
    c.category = d.category.getD "Signature" ∧
    categories.contains c.category = true ∧
    c.slug = slugField d ∧
    d.name = some c.name ∧
    pyFloat (d.base_price.getD (PyVal.num 0)) = Except.ok c.base_price := by
  unfold to_cake_out at h
  cases hbp : pyFloat (d.base_price.getD (PyVal.num 0)) with
  | error e => rw [hbp] at h; simp at h
  | ok bp =>
    rw [hbp] at h
    dsimp only at h
    cases hn : d.name with
    | none => rw [hn] at h; simp at h
    | some nm =>
      rw [hn] at h
      dsimp only at h
      by_cases hcat : categories.contains (d.category.getD "Signature") = false
      · rw [if_pos hcat] at h; simp at h
      · rw [if_neg hcat] at h
        by_cases hopt : optionsOk d.options = false
        · rw [if_pos hopt] at h; simp at h
        · rw [if_neg hopt] at h
          injection h with h2
          subst h2
          refine ⟨rfl, ?_, rfl, rfl, rfl⟩
          simpa using hcat

theorem to_cake_out_noName (d : StoredDoc) (h : d.name = none) :
    (to_cake_out d).isOk = false := by
  unfold to_cake_out
  rw [h]
  split
  · rfl
  · rfl

theorem mapExcept_isOk_false (f : StoredDoc → Except PyErr CakeOut)
    (l : List StoredDoc) (d : StoredDoc) (hd : d ∈ l)
    (hfd : (f d).isOk = false) : (mapExcept f l).isOk = false := by
  induction l with
  | nil => cases hd
  | cons x xs ih =>
    unfold mapExcept
    cases hx : f x with
    | error e => rfl
    | ok c =>
      dsimp only
      rcases List.mem_cons.mp hd with heq | hmem
      · rw [heq, hx] at hfd
        simp [Except.isOk, Except.toBool] at hfd
      · have hxs := ih hmem
        cases hm : mapExcept f xs with
        | error e2 => rfl
        | ok cs =>
          rw [hm] at hxs
          simp [Except.isOk, Except.toBool] at hxs

theorem filter_trivial_query (docs : List StoredDoc) :
    docs.filter (matchesQuery (buildQuery none none)) = docs := by
  induction docs with
  | nil => rfl
  | cons x xs ih => simp [List.filter_cons, matchesQuery, buildQuery, ih]

/-- C1 (counterexample): the stored category "Gothic" is not coerced to
"Signature"; `to_cake_out` rejects the record with a pydantic validation
error, refuting the claim that an unrecognized stored category value is
coerced rather than causing rejection. -/
theorem c1_category_enum_counterexample :
    to_cake_out gothicDoc = Except.error PyErr.validationError := by decide

/-- C1 (amended): every successfully normalized Catalog Item's category is in
the fixed enumeration; a missing stored category is coerced to "Signature"
and a present stored value passes through unchanged — but an unrecognized
present value makes normalization reject the record instead of coercing it. -/
theorem c1_category_enum_amended :
    ∀ d c, to_cake_out d = Except.ok c →
      c.category ∈ categories ∧
      (d.category = none → c.category = "Signature") ∧
      (∀ s, d.category = some s → c.category = s) := by
  intro d c h
  obtain ⟨h1, h2, -, -, -⟩ := to_cake_out_ok_fields d c h
  refine ⟨?_, ?_, ?_⟩
  · simpa using h2
  · intro h0
    rw [h1, h0]
    rfl
  · intro s hs
    rw [h1, hs]
    rfl

/-- C1 (witness): `corporateDoc` normalizes successfully; its category is in
the enumeration and equals the stored value "Corporate". -/
theorem c1_category_enum_witness :
    corporateOut.category ∈ categories ∧ corporateOut.category = "Corporate" :=
  ⟨(c1_category_enum_amended corporateDoc corporateOut (by decide)).1,
   (c1_category_enum_amended corporateDoc corporateOut (by decide)).2.2
     "Corporate" rfl⟩

/-- C2 (counterexample): a stored `base_price` of "abc" is not defaulted
to 0; `float("abc")` raises `ValueError`, which propagates out of the
normalizer, refuting the claim that coercion failure defaults to 0 without
raising. -/
theorem c2_base_price_counterexample :
    to_cake_out priceBadStrDoc = Except.error PyErr.valueError := by decide

/-- C2 (amended): for every record that normalizes successfully, `base_price`
is the numeric coercion of the stored value and defaults to 0 when the value
is absent; but when numeric coercion of a present stored string fails,
normalization raises `ValueError` instead of defaulting to 0. -/
theorem c2_base_price_amended :
    (∀ d c, to_cake_out d = Except.ok c →
      (d.base_price = none → c.base_price = 0) ∧
      (∀ q, d.base_price = some (PyVal.num q) → c.base_price = q)) ∧
    (∀ d s, d.base_price = some (PyVal.str s) → parsePyFloat s = none →
      to_cake_out d = Except.error PyErr.valueError) := by
  constructor
  · intro d c h
    obtain ⟨-, -, -, -, hbp⟩ := to_cake_out_ok_fields d c h
    constructor
    · intro h0
      rw [h0] at hbp
      simp [pyFloat] at hbp
      exact hbp.symm
    · intro q hq
      rw [hq] at hbp
      simp [pyFloat] at hbp
      exact hbp.symm
  · intro d s h1 h2
    unfold to_cake_out
    rw [h1]
    simp [pyFloat, h2]

/-- C2 (witness): a record without a stored `base_price` normalizes with
`base_price = 0`; a record whose stored `base_price` is the unparsable
string "abc" makes normalization raise `ValueError`. -/
theorem c2_base_price_witness :
    priceAbsentOut.base_price = 0 ∧
    to_cake_out priceBadStrDoc = Except.error PyErr.valueError :=
  ⟨(c2_base_price_amended.1 priceAbsentDoc priceAbsentOut (by decide)).1 rfl,
   c2_base_price_amended.2 priceBadStrDoc "abc" rfl (by decide)⟩

/-- C3: slug derivation is a deterministic pure function of the name and
equals the spec's lowercase-strip-collapse description on every input;
"Madagascar Vanilla Classic" maps to "madagascar-vanilla-classic"; and
normalization uses the stored slug when present and non-empty, otherwise the
derivation from the name. -/
theorem c3_slug_derivation :
    (∀ name : String, slugify name = slugSpec name) ∧
    (∀ name : String, slugify name = slugify name) ∧
    slugify "Madagascar Vanilla Classic" = "madagascar-vanilla-classic" ∧
    (∀ d c s, to_cake_out d = Except.ok c → d.slug = some s → s ≠ "" →
      c.slug = s) ∧
    (∀ d c n, to_cake_out d = Except.ok c →
      (d.slug = none ∨ d.slug = some "") → d.name = some n →
      c.slug = slugify n) := by
  refine ⟨slugify_eq_slugSpec, fun n => rfl, by decide, ?_, ?_⟩
  · intro d c s h hs hne
    obtain ⟨-, -, hslug, -, -⟩ := to_cake_out_ok_fields d c h
    rw [hslug]
    unfold slugField
    rw [hs]
    simp [hne]
  · intro d c n h hcase hn
    obtain ⟨-, -, hslug, -, -⟩ := to_cake_out_ok_fields d c h
    rw [hslug]
    unfold slugField
    cases hcase with
    | inl h0 =>
      rw [h0, hn]
      rfl
    | inr h0 =>
      rw [h0, hn]
      simp

/-- C3 (witness): a record with stored slug "custom" keeps it; a record with
no stored slug gets the derivation from its name "Choco Loco". -/
theorem c3_slug_derivation_witness :
    storedSlugOut.slug = "custom" ∧ derivedSlugOut.slug = slugify "Choco Loco" :=
  ⟨c3_slug_derivation.2.2.2.1 storedSlugDoc storedSlugOut "custom" (by decide)
     rfl (by decide),
   c3_slug_derivation.2.2.2.2 derivedSlugDoc derivedSlugOut "Choco Loco"
     (by decide) (Or.inl rfl) rfl⟩

/-- C4: a stored record with only the identity key, name "X" and
base_price 10 normalizes without raising to a Catalog Item with
category "Signature", featured false, and every optional field absent. -/
theorem c4_minimal_record_defaults :
    to_cake_out minimalDoc = Except.ok minimalOut := by decide

/-- C5 (counterexample): listing a store that holds one good record and one
record without a usable name does not return the good record alone — the
pydantic validation error from the malformed record aborts the whole list
operation, refuting the skip-and-continue claim. -/
theorem c5_malformed_record_counterexample :
    list_cakes (some [goodDoc, noNameDoc]) none none =
      Except.error (AppErr.py PyErr.validationError) := by decide

/-- C5 (amended): a stored record lacking a usable name is not excluded from
the results; its normalization failure aborts the entire list operation, so
no result list is produced at all. -/
theorem c5_malformed_record_amended :
    ∀ docs d, d ∈ docs → d.name = none →
      (list_cakes (some docs) none none).isOk = false := by
  intro docs d hmem hname
  unfold list_cakes
  dsimp only
  rw [filter_trivial_query]
  have h := mapExcept_isOk_false to_cake_out docs d hmem
    (to_cake_out_noName d hname)
  cases hm : mapExcept to_cake_out docs with
  | error e => rfl
  | ok cs =>
    rw [hm] at h
    simp [Except.isOk, Except.toBool] at h

/-- C5 (witness): the two-record store with one nameless record yields no
result list. -/
theorem c5_malformed_record_witness :
    (list_cakes (some [goodDoc, noNameDoc]) none none).isOk = false :=
  c5_malformed_record_amended [goodDoc, noNameDoc] noNameDoc (by decide) rfl

/-- C6: `get_cake` succeeds only with the normalization of a stored record
whose slug equals the argument (on the fallback path, with an item whose slug
equals the argument), and when no record matches it fails with the same
HTTP 404 "Cake not found" in both store states. -/
theorem c6_get_by_slug :
    ∀ slug : String,
      (∀ docs, (∀ d ∈ docs, d.slug ≠ some slug) →
        get_cake (some docs) slug =
          Except.error (AppErr.http 404 "Cake not found")) ∧
      ((∀ c ∈ ensure_static_fallback, c.slug ≠ slug) →
        get_cake none slug =
          Except.error (AppErr.http 404 "Cake not found")) ∧
      (∀ docs c, get_cake (some docs) slug = Except.ok c →
        ∃ d ∈ docs, d.slug = some slug ∧ to_cake_out d = Except.ok c) ∧
      (∀ c, get_cake none slug = Except.ok c → c.slug = slug) := by
  intro slug
  refine ⟨?_, ?_, ?_, ?_⟩
  · intro docs hnone
    unfold get_cake
    dsimp only
    rw [List.find?_eq_none.mpr]
    intro d hd
    simpa using hnone d hd
  · intro hnone
    unfold get_cake
    dsimp only
    rw [List.find?_eq_none.mpr]
    intro c hc
    simpa using hnone c hc
  · intro docs c h
    unfold get_cake at h
    dsimp only at h
    cases hf : docs.find? (fun d => d.slug == some slug) with
    | none => rw [hf] at h; simp at h
    | some d0 =>
      rw [hf] at h
      dsimp only at h
      have hmem := List.mem_of_find?_eq_some hf
      have hps : d0.slug = some slug := by simpa using List.find?_some hf
      cases hout : to_cake_out d0 with
      | error e => rw [hout] at h; simp at h
      | ok c0 =>
        rw [hout] at h
        simp only [Except.ok.injEq] at h
        exact ⟨d0, hmem, hps, by rw [hout, h]⟩
  · intro c h
    unfold get_cake at h
    dsimp only at h
    cases hf : ensure_static_fallback.find? (fun x => x.slug == slug) with
    | none => rw [hf] at h; simp at h
    | some c0 =>
      rw [hf] at h
      dsimp only at h
      simp only [Except.ok.injEq] at h
      have := List.find?_some hf
      rw [h] at this
      simpa using this

/-- C6 (witness): the slug "nonexistent-slug" yields the same 404 with the
fixed message against a live store and on the fallback path. -/
theorem c6_get_by_slug_witness :
    get_cake (some [goodDoc]) "nonexistent-slug" =
        Except.error (AppErr.http 404 "Cake not found") ∧
      get_cake none "nonexistent-slug" =
        Except.error (AppErr.http 404 "Cake not found") :=
  ⟨(c6_get_by_slug "nonexistent-slug").1 [goodDoc] (by decide),
   (c6_get_by_slug "nonexistent-slug").2.1 (by decide)⟩

/-- C7: with no store handle, `list_cakes` returns the full two-item fallback
set for every combination of filter arguments; the result is never empty; and
the fallback items agree with running the normalizer over the fallback dicts
(up to the positional `id`, which the normalizer would instead take from the
missing store key). -/
theorem c7_fallback_ignores_filters :
    (∀ category featured,
      list_cakes none category featured = Except.ok ensure_static_fallback) ∧
    ensure_static_fallback.length = 2 ∧
    ensure_static_fallback ≠ [] ∧
    mapExcept to_cake_out fallbackDocs =
      Except.ok (ensure_static_fallback.map (fun c => { c with id := "None" })) := by
  refine ⟨?_, by decide, by decide, by decide⟩
  intro category featured
  rfl

/-- C8: the seed loader never inserts into a non-empty collection (even when
the count or insert operation would fail, the state is unchanged), and only
an empty collection is seeded — with exactly the three sample records. -/
theorem c8_seed_idempotent :
    (∀ docs cf inf, docs ≠ [] →
      ensure_seed_data (SeedDB.store docs cf inf) =
        Except.ok (SeedDB.store docs cf inf)) ∧
    ensure_seed_data (SeedDB.store [] false false) =
      Except.ok (SeedDB.store ([] ++ seedSamples) false false) ∧
    seedSamples.length = 3 := by
  refine ⟨?_, by decide, by decide⟩
  intro docs cf inf hne
  unfold ensure_seed_data seedBody
  cases cf
  · simp [List.length_eq_zero, hne]
  · rfl

/-- C8 (witness): running the seed loader against the already-seeded store
leaves it unchanged. -/
theorem c8_seed_idempotent_witness :
    ensure_seed_data (SeedDB.store seedSamples false false) =
      Except.ok (SeedDB.store seedSamples false false) :=
  c8_seed_idempotent.1 seedSamples false false (by decide)

/-- C9: every seeding failure — missing store module, absent store handle,
a failing count operation, or a failing insert operation — is swallowed:
the seed loader returns normally (it never propagates an exception), leaving
the store unchanged in each failure case. -/
theorem c9_seed_failures_swallowed :
    ensure_seed_data SeedDB.importFailed = Except.ok SeedDB.importFailed ∧
    ensure_seed_data SeedDB.dbNone = Except.ok SeedDB.dbNone ∧
    (∀ docs inf, ensure_seed_data (SeedDB.store docs true inf) =
      Except.ok (SeedDB.store docs true inf)) ∧
    ensure_seed_data (SeedDB.store [] false true) =
      Except.ok (SeedDB.store [] false true) ∧
    (∀ db, (ensure_seed_data db).isOk = true) := by
  refine ⟨by decide, by decide, ?_, by decide, ?_⟩
  · intro docs inf
    rfl
  · intro db
    unfold ensure_seed_data
    split
    · rfl
    · rfl

/-- C10: an empty-string category argument is omitted from the store query
exactly as if no category were supplied (so live listings coincide), while
`featured = false` is a real constraint that is included in the query and
filters records; only truthy categories and non-`None` featured values enter
the query. -/
theorem c10_query_building :
    (∀ docs featured,
      list_cakes (some docs) (some "") featured =
        list_cakes (some docs) none featured) ∧
    (∀ category featured, (buildQuery category featured).featured = featured) ∧
    (∀ category featured, (buildQuery category featured).category = none ↔
      (category = none ∨ category = some "")) ∧
    list_cakes (some [featTrueDoc, featFalseDoc]) none (some false) =
      Except.ok [featFalseOut] := by
  refine ⟨?_, ?_, ?_, by decide⟩
  · intro docs featured
    rfl
  · intro category featured
    rfl
  · intro category featured
    cases category with
    | none => simp [buildQuery]
    | some s =>
      by_cases hs : s = ""
      · simp [buildQuery, hs]
      · simp [buildQuery, hs]
